import Mathlib

/-!
Verification of the Instagram outreach bot core: conversation state machine,
scoring engine, rate limiter / kill-switch, and persistence operations.

The definitions below are a shallow embedding of the Python sources:
`src/config.py`, `src/ai/gemini_client.py`, `src/bot/conversation_manager.py`,
`src/bot/scheduler.py` and `src/database/models.py`.  Timestamps and calendar
dates are modelled as integers; database rows are modelled as Lean structures
and the single-row state mutations as explicit state passing.
-/

namespace InstaBot

/-! ### Configuration constants (src/config.py) -/

def SCORE_ASKED_QUESTION : Int := 1

def SCORE_MENTIONED_PROBLEM : Int := 2

def SCORE_SHORT_COLD_REPLY : Int := -3

def SCORE_REJECTION : Int := -5

def SCORE_THRESHOLD : Int := 0

def CONSECUTIVE_REJECTIONS_LIMIT : Int := 2

def KILL_SWITCH_DURATION : Int := 24 * 60 * 60

/-- The `DM_LIMITS` dict from src/config.py: day ranges with their DM caps,
in insertion order. -/
def DM_LIMITS : List ((Int × Int) × Int) :=
  [((1, 3), 8), ((4, 7), 15), ((8, 14), 25), ((15, 999), 40)]

/-! ### Python string primitives

`pyLower` models `str.lower()` (per-character lowering), `pyStrip` models
`str.strip()` (drop whitespace from both ends) and `pyStripBy` the
character-set variant `str.strip(chars)`. -/

def pyLower (l : List Char) : List Char := l.map Char.toLower

def pyStripBy (p : Char → Bool) (l : List Char) : List Char :=
  ((l.dropWhile p).reverse.dropWhile p).reverse

def pyStrip (l : List Char) : List Char := pyStripBy Char.isWhitespace l

/-! ### Scoring engine (src/ai/gemini_client.py) -/

/-- Rejection indicator phrases from `analyze_user_response`. -/
def rejection_phrases : List (List Char) :=
  ["kerak emas".data, "qiziq emas".data, "yo\x27q".data, "rahmat lekin".data,
   "hozir emas".data, "vaqtim yo\x27q".data, "boshqa safar".data, "spam".data]

/-- Problem mention indicator phrases from `analyze_user_response`. -/
def problem_phrases : List (List Char) :=
  ["muammo".data, "qiyin".data, "vaqt".data, "ketadi".data, "umuman".data,
   "yordam".data, "kerak".data, "qanday".data, "nima qilsam".data]

/-- Short neutral-acknowledgment phrases from `analyze_user_response`. -/
def neutral_engagement : List (List Char) :=
  ["ok".data, "ha".data, "yoq".data, "hmm".data, "xop".data,
   "bilmadim".data, "ko\x27ramiz".data]

/-- Result of `analyze_user_response`. -/
structure Analysis where
  is_rejection : Bool
  is_question : Bool
  mentions_problem : Bool
  is_cold : Bool
deriving DecidableEq

/-- Model of `analyze_user_response(message)`: classification of a user utterance.
The phrase checks run on `message.lower().strip()`; the question-mark check
and the length check run on the raw message, exactly as in the source. -/
def analyze_user_response (message : String) : Analysis :=
  let message_lower := pyStrip (pyLower message.data)
  { is_rejection := rejection_phrases.any fun p => decide (p <:+: message_lower)
    is_question := message.data.contains '?'
    mentions_problem := problem_phrases.any fun p => decide (p <:+: message_lower)
    is_cold := decide (message_lower ∈ neutral_engagement)
                 || decide (message.data.length < 10) }

/-- Model of `calculate_score_delta(analysis)`: confidence score change. -/
def calculate_score_delta (a : Analysis) : Int :=
  if a.is_rejection then SCORE_REJECTION
  else if a.is_cold then 0
  else (if a.is_question then SCORE_ASKED_QUESTION else 0)
       + (if a.mentions_problem then SCORE_MENTIONED_PROBLEM else 0)

/-! ### Data model (src/database/models.py, src/bot/conversation_manager.py)

Conversation states are the `STATE_*` constants of `ConversationManager`;
lead `status` stays a string as in the database schema. -/

inductive ConvState where
  | state_new
  | first_sent
  | qualifying
  | soft_transition
  | rejected
  | converted
  | exited
deriving DecidableEq

/-- The fields of a `leads` row that the conversation dynamics touch. -/
structure Lead where
  username : String
  bio : String
  niche : String
  status : String
  confidence_score : Int
  consecutive_rejections : Int
deriving DecidableEq

structure Conversation where
  state : ConvState
  message_count : Int
deriving DecidableEq

structure Msg where
  role : String
  content : String
deriving DecidableEq

/-- The singleton `bot_state` row (`id = 1`). -/
structure BotState where
  paused_until : Option Int
  total_dms_today : Int
  last_dm_date : Int
  account_created_date : Option Int
deriving DecidableEq

/-- The mutable state a single-lead scheduler iteration touches: the lead row,
its conversation row, the message history and the global bot state. -/
structure Sys where
  lead : Lead
  conv : Conversation
  msgs : List Msg
  bot : BotState
deriving DecidableEq

/-! ### Bot-state operations (src/database/models.py) -/

/-- Model of `pause_bot(duration_seconds)`: set `paused_until = now + duration`. -/
def pause_bot (now duration : Int) (st : BotState) : BotState :=
  { st with paused_until := some (now + duration) }

/-- Model of `is_bot_paused()`: true when the row exists, `paused_until` is set and
`now < paused_until`. -/
def is_bot_paused (now : Int) (row : Option BotState) : Bool :=
  match row with
  | none => false
  | some st =>
    match st.paused_until with
    | none => false
    | some t => decide (now < t)

/-- Model of `get_dm_count_today()`: today's count, or 0 when the stored date is not
today or the singleton row is absent. -/
def get_dm_count_today (today : Int) (row : Option BotState) : Int :=
  match row with
  | none => 0
  | some st => if st.last_dm_date = today then st.total_dms_today else 0

/-- Model of `increment_dm_count()`: reset to 1 on a new day, else add 1. -/
def increment_dm_count (today : Int) (st : BotState) : BotState :=
  if st.last_dm_date ≠ today then
    { st with total_dms_today := 1, last_dm_date := today }
  else
    { st with total_dms_today := st.total_dms_today + 1 }

/-! ### Rate limiter (src/bot/scheduler.py) -/

/-- The `for (min_day, max_day), limit in DM_LIMITS.items()` loop of
`get_daily_dm_limit`: first matching band wins, else the safe default 8. -/
def lookup_limit : List ((Int × Int) × Int) → Int → Int
  | [], _ => 8
  | (r, lim) :: rest, days =>
    if r.1 ≤ days ∧ days ≤ r.2 then lim else lookup_limit rest days

/-- Model of `get_daily_dm_limit()` as a function of the account age in days. -/
def get_daily_dm_limit (days : Int) : Int := lookup_limit DM_LIMITS days

/-- Model of `can_send_dm()`: false when the kill-switch pause is active or today's
count has reached the cap. -/
def can_send_dm (now today days : Int) (row : Option BotState) : Bool :=
  if is_bot_paused now row then false
  else if get_dm_count_today today row ≥ get_daily_dm_limit days then false
  else true

/-! ### Conversation state machine (src/bot/conversation_manager.py) -/

/-- Model of `ConversationManager.should_respond` together with its side effects:
returns the gate result and the lead/conversation rows as left by the call
(`_exit_politely` fires only in the low-score branch). -/
def should_respond_run (lead : Lead) (conv : Conversation) :
    Bool × Lead × Conversation :=
  if conv.state = ConvState.rejected ∨ conv.state = ConvState.exited then
    (false, lead, conv)
  else if lead.confidence_score < SCORE_THRESHOLD then
    (false, { lead with status := "exited" },
            { conv with state := ConvState.exited })
  else
    (true, lead, conv)

/-- The fixed polite-exit text of `_handle_rejection`. -/
def exit_message : String := "Tushundim, vaqt ajratganingiz uchun rahmat."

/-- Model of `ConversationManager._handle_rejection`: increment the rejection counter,
move to `rejected`, trigger the kill-switch at the threshold, and append the
fixed exit message. -/
def handle_rejection (now : Int) (sys : Sys) : String × Sys :=
  let rejection_count := sys.lead.consecutive_rejections + 1
  let lead := { sys.lead with consecutive_rejections := rejection_count,
                              status := "rejected" }
  let conv := { sys.conv with state := ConvState.rejected }
  let bot :=
    if rejection_count ≥ CONSECUTIVE_REJECTIONS_LIMIT then
      pause_bot now KILL_SWITCH_DURATION sys.bot
    else sys.bot
  (exit_message,
   { lead := lead, conv := conv,
     msgs := sys.msgs ++ [Msg.mk "assistant" exit_message], bot := bot })

/-- Model of `ConversationManager.process_user_reply`.  The generator is abstracted by
its result `gen` (`generate_reply` yields `""` on failure).  The message count
driving the state choice is the count stored before this call, exactly as
`get_message_count` reads the constructor's snapshot. -/
def process_user_reply (gen : String) (user_message : String) (now : Int)
    (sys : Sys) : String × Sys :=
  let sys0 := { sys with msgs := sys.msgs ++ [Msg.mk "user" user_message] }
  let analysis := analyze_user_response user_message
  let score_delta := calculate_score_delta analysis
  let sys1 := { sys0 with lead :=
    { sys0.lead with confidence_score := sys0.lead.confidence_score + score_delta } }
  if analysis.is_rejection then
    handle_rejection now sys1
  else
    let lead := { sys1.lead with consecutive_rejections := 0 }
    let conv := { sys1.conv with state :=
      if sys1.conv.message_count ≥ 3 then ConvState.soft_transition
      else ConvState.qualifying }
    let response := gen
    if response ≠ "" then
      (response,
       { sys1 with lead := lead,
                   conv := { conv with message_count := conv.message_count + 1 },
                   msgs := sys1.msgs ++ [Msg.mk "assistant" response] })
    else
      (response, { sys1 with lead := lead, conv := conv })

/-! ### Generation fallbacks (src/ai/gemini_client.py) -/

/-- Python's `text.strip()` followed by `text.strip('"\x27')` as applied to a
successful generation result. -/
def strip_quotes (s : String) : String :=
  String.mk (pyStripBy (fun c => c == '"' || c == Char.ofNat 39) (pyStrip s.data))

/-- The canned fallback templates of `generate_first_message`, keyed by
time of day with the `.get` default. -/
def fallback_first_message (time_of_day : String) : String :=
  if time_of_day = "morning" then
    "Assalomu alaykum! Ishlaringiz va biznesingiz yaxshimi? Akkauntingizni kuzatib qiziq mavzularni ko\x27rdim."
  else if time_of_day = "afternoon" then
    "Assalomu alaykum! Biznesingiz rivoji qanday ketyapti? Profilingizdagi kontentlar juda qiziqarli ekan."
  else if time_of_day = "evening" then
    "Assalomu alaykum! Xayrli kech. Ishlaringiz yaxshimi? Profilingizni ko\x27rib juda qiziqib qoldim."
  else
    "Assalomu alaykum! Ishlaringiz yaxshimi? Profilingizni kuzatib juda qiziqib qoldim."

/-- Model of `gemini_client.generate_first_message`: the backend call is abstracted by
its outcome (`some text` on success, `none` on any exception); on failure the
canned time-of-day template is substituted. -/
def gemini_generate_first_message (gen_result : Option String)
    (time_of_day : String) : String :=
  match gen_result with
  | some text => strip_quotes text
  | none => fallback_first_message time_of_day

/-- Model of `gemini_client.generate_reply`: returns `""` on failure. -/
def gemini_generate_reply (gen_result : Option String) : String :=
  match gen_result with
  | some text => strip_quotes text
  | none => ""

/-- Model of `ConversationManager.generate_first_message`: on a truthy message, append
it, increment `message_count`, move to `first_sent` and mark the lead
`contacted`. -/
def cm_generate_first_message (gen_result : Option String)
    (time_of_day : String) (sys : Sys) : String × Sys :=
  let message := gemini_generate_first_message gen_result time_of_day
  if message ≠ "" then
    (message,
     { sys with msgs := sys.msgs ++ [Msg.mk "assistant" message],
                conv := { sys.conv with
                           message_count := sys.conv.message_count + 1,
                           state := ConvState.first_sent },
                lead := { sys.lead with status := "contacted" } })
  else
    (message, sys)

/-! ### Inbox pass (src/bot/scheduler.py, `process_inbox` loop body) -/

/-- One unread message handled by the `process_inbox` loop: re-check
`can_send_dm`, evaluate `should_respond`, run the reply path, and count the
delivery when a non-empty response is sent. -/
def inbox_step (gen : String) (now today days : Int) (user_message : String)
    (sys : Sys) : Sys :=
  if can_send_dm now today days (some sys.bot) = false then sys
  else
    let r := should_respond_run sys.lead sys.conv
    let sys1 := { sys with lead := r.2.1, conv := r.2.2 }
    if r.1 = false then sys1
    else
      let out := process_user_reply gen user_message now sys1
      if out.1 ≠ "" then
        { out.2 with bot := increment_dm_count today out.2.bot }
      else out.2

/-- The inputs consumed by one `process_inbox` loop iteration. -/
structure InboxInput where
  gen : String
  user_message : String
  now : Int
  today : Int
  days : Int

/-- A whole sequence of inbox iterations applied to one lead's state. -/
def run_inbox (steps : List InboxInput) (sys : Sys) : Sys :=
  steps.foldl
    (fun s q => inbox_step q.gen q.now q.today q.days q.user_message s) sys

/-! ### Lead insertion (src/database/models.py, `add_lead`)

The `leads` and `conversations` tables are modelled as lists of rows.  The
`init_database` schema declares `UNIQUE` on `leads.username`, but only
`NOT NULL` and a foreign key on `conversations.lead_id` — no unique or
exclusion constraint.  Each backend's `add_lead` is translated separately. -/

/-- A full `leads` row as relevant to `add_lead`. -/
structure LeadRow where
  id : Int
  username : String
  bio : String
  last_post_topic : String
  niche : String
  status : String
  confidence_score : Int
  consecutive_rejections : Int
  updated_at : Int
deriving DecidableEq

/-- The lookup `SELECT ... FROM leads WHERE username = ?` (by unique key). -/
def findLead (tbl : List LeadRow) (u : String) : Option LeadRow :=
  tbl.find? fun row => row.username == u

/-- A freshly inserted row with the schema defaults. -/
def newLeadRow (id : Int) (username bio last_post_topic niche : String)
    (now : Int) : LeadRow :=
  { id := id, username := username, bio := bio,
    last_post_topic := last_post_topic, niche := niche, status := "new",
    confidence_score := 0, consecutive_rejections := 0, updated_at := now }

/-- A `conversations` row as relevant to `add_lead`. -/
structure ConvRow where
  id : Int
  lead_id : Int
  state : String
deriving DecidableEq

/-- Whether the `conversations` schema declares a unique (or exclusion)
constraint on `lead_id`: the `CREATE TABLE conversations` statement of
`init_database` declares only `NOT NULL` and a foreign key, so it does
not. -/
def conversations_lead_id_has_unique : Bool := false

/-- Model of `add_lead` on the SQLite backend: `INSERT OR IGNORE` into
`leads` (fetching the existing row's id when the insert was ignored),
followed by `INSERT OR IGNORE INTO conversations (lead_id, state)` — which,
with no unique constraint on `lead_id`, never conflicts and therefore
appends a fresh conversation row on every call. -/
def add_lead_sqlite (tbl : List LeadRow) (convs : List ConvRow)
    (nextId convNextId : Int) (username bio last_post_topic niche : String)
    (now : Int) : Int × List LeadRow × List ConvRow :=
  let step : Int × List LeadRow :=
    match findLead tbl username with
    | some row => (row.id, tbl)
    | none =>
      (nextId, tbl ++ [newLeadRow nextId username bio last_post_topic niche now])
  (step.1, step.2, convs ++ [ConvRow.mk convNextId step.1 "new"])

/-- Model of the PostgreSQL statement `INSERT INTO conversations (lead_id,
state) VALUES (%s, 'new') ON CONFLICT (lead_id) DO NOTHING`: an
`ON CONFLICT (lead_id)` target requires a unique or exclusion constraint on
`conversations.lead_id`; the schema declares none, so PostgreSQL raises a
ProgrammingError instead of inserting. -/
def pg_insert_conversation (convs : List ConvRow) (convNextId lead_id : Int) :
    Option (List ConvRow) :=
  if conversations_lead_id_has_unique then
    some (if convs.any fun c => c.lead_id == lead_id then convs
          else convs ++ [ConvRow.mk convNextId lead_id "new"])
  else
    none

/-- Model of `add_lead` on the PostgreSQL backend: the `leads` upsert
(`ON CONFLICT (username) DO UPDATE SET updated_at = CURRENT_TIMESTAMP
RETURNING id`) executes, but the subsequent `conversations` insert raises
(see `pg_insert_conversation`); the exception propagates out of `add_lead`
before `conn.commit()`, the `finally` block closes the connection, and the
uncommitted transaction is rolled back — so no state change survives and no
id is ever returned. -/
def add_lead_pg (tbl : List LeadRow) (convs : List ConvRow)
    (nextId convNextId : Int) (username bio last_post_topic niche : String)
    (now : Int) : Option (Int × List LeadRow × List ConvRow) :=
  let step : Int × List LeadRow :=
    match findLead tbl username with
    | some row =>
      (row.id,
       tbl.map fun r =>
         if r.username == username then { r with updated_at := now } else r)
    | none =>
      (nextId, tbl ++ [newLeadRow nextId username bio last_post_topic niche now])
  match pg_insert_conversation convs convNextId step.1 with
  | some convs2 => some (step.1, step.2, convs2)
  | none => none

/-! ### Helper lemmas -/

/-- Closed form of the warmup band lookup. -/
theorem get_daily_dm_limit_eq (d : Int) :
    get_daily_dm_limit d =
      if 1 ≤ d ∧ d ≤ 3 then 8
      else if 4 ≤ d ∧ d ≤ 7 then 15
      else if 8 ≤ d ∧ d ≤ 14 then 25
      else if 15 ≤ d ∧ d ≤ 999 then 40
      else 8 := by
  simp only [get_daily_dm_limit, DM_LIMITS, lookup_limit]

/-- Every warmup band value is positive. -/
theorem get_daily_dm_limit_pos (d : Int) : 0 < get_daily_dm_limit d := by
  rw [get_daily_dm_limit_eq]
  split_ifs <;> norm_num

/-! ### Claims -/

/-- C4: when the stored `last_dm_date` is strictly before today, one call to
`increment_dm_count` sets `total_dms_today` to exactly 1 (the triggering
increment itself counts) and moves `last_dm_date` to today; when the stored
date already equals today, the same call adds exactly 1 to the counter. -/
theorem c4_daily_rollover (today : Int) (st : BotState) :
    (st.last_dm_date < today →
      (increment_dm_count today st).total_dms_today = 1 ∧
      (increment_dm_count today st).last_dm_date = today) ∧
    (st.last_dm_date = today →
      (increment_dm_count today st).total_dms_today = st.total_dms_today + 1 ∧
      (increment_dm_count today st).last_dm_date = st.last_dm_date) := by
  unfold increment_dm_count
  constructor
  · intro h
    rw [if_pos (by omega)]
    exact ⟨rfl, rfl⟩
  · intro h
    rw [if_neg (by omega)]
    exact ⟨rfl, rfl⟩

/-- Witness for C4: yesterday's date 5 with a stale count of 7 rolls over to
exactly 1 on day 6; a same-day increment goes from 7 to 8. -/
theorem c4_daily_rollover_witness :
    ((increment_dm_count 6 (BotState.mk none 7 5 none)).total_dms_today = 1 ∧
     (increment_dm_count 6 (BotState.mk none 7 5 none)).last_dm_date = 6) ∧
    ((increment_dm_count 6 (BotState.mk none 7 6 none)).total_dms_today = 7 + 1 ∧
     (increment_dm_count 6 (BotState.mk none 7 6 none)).last_dm_date = 6) :=
  ⟨(c4_daily_rollover 6 (BotState.mk none 7 5 none)).1 (by decide),
   (c4_daily_rollover 6 (BotState.mk none 7 6 none)).2 rfl⟩

/-- C5: the daily cap is a total step function of account age: ages 1–3 map
to 8, 4–7 to 15, 8–14 to 25, 15–999 (the "15+" band of the source table) to
40, and every age outside all bands — including age 0 and age 1000 — falls
back to the conservative default cap 8. -/
theorem c5_dm_limit_bands (d : Int) :
    (1 ≤ d ∧ d ≤ 3 → get_daily_dm_limit d = 8) ∧
    (4 ≤ d ∧ d ≤ 7 → get_daily_dm_limit d = 15) ∧
    (8 ≤ d ∧ d ≤ 14 → get_daily_dm_limit d = 25) ∧
    (15 ≤ d ∧ d ≤ 999 → get_daily_dm_limit d = 40) ∧
    (d < 1 ∨ 999 < d → get_daily_dm_limit d = 8) := by
  rw [get_daily_dm_limit_eq]
  refine ⟨fun h => ?_, fun h => ?_, fun h => ?_, fun h => ?_, fun h => ?_⟩ <;>
    split_ifs <;> omega

/-- Witness for C5: age 5 → 15, age 20 → 40, and the unmatched ages 0 and
1000 both resolve to the fallback cap 8. -/
theorem c5_dm_limit_bands_witness :
    get_daily_dm_limit 5 = 15 ∧ get_daily_dm_limit 20 = 40 ∧
    get_daily_dm_limit 0 = 8 ∧ get_daily_dm_limit 1000 = 8 :=
  ⟨(c5_dm_limit_bands 5).2.1 (by decide),
   (c5_dm_limit_bands 20).2.2.2.1 (by decide),
   (c5_dm_limit_bands 0).2.2.2.2 (Or.inl (by decide)),
   (c5_dm_limit_bands 1000).2.2.2.2 (Or.inr (by decide))⟩

/-- C10: whenever the stored `last_dm_date` differs from today, the read of
today's sent count returns 0 regardless of the stored total (and returns 0
when the singleton row is absent); consequently, right after a day boundary
and with no pause active, `can_send_dm` compares the cap against an
effective count of 0 and returns true before any reset write happened. -/
theorem c10_day_boundary (now today days : Int) (st : BotState)
    (hdate : st.last_dm_date ≠ today) :
    get_dm_count_today today (some st) = 0 ∧
    get_dm_count_today today none = 0 ∧
    (is_bot_paused now (some st) = false →
      can_send_dm now today days (some st) = true) := by
  have hcnt : get_dm_count_today today (some st) = 0 := by
    simp only [get_dm_count_today]
    rw [if_neg hdate]
  refine ⟨hcnt, rfl, fun hp => ?_⟩
  unfold can_send_dm
  rw [hp]
  rw [hcnt]
  rw [if_neg (by simp)]
  rw [if_neg (by have := get_daily_dm_limit_pos days; omega)]

/-- Witness for C10: a stale row (last date 5, stored total 37, no pause)
reads as 0 on day 6, the absent row reads as 0, and `can_send_dm` is true. -/
theorem c10_day_boundary_witness :
    get_dm_count_today 6 (some (BotState.mk none 37 5 none)) = 0 ∧
    get_dm_count_today 6 none = 0 ∧
    can_send_dm 0 6 2 (some (BotState.mk none 37 5 none)) = true := by
  have h := c10_day_boundary 0 6 2 (BotState.mk none 37 5 none) (by decide)
  exact ⟨h.1, h.2.1, h.2.2 (by decide)⟩

/-- C2 counterexample: a lead with a healthy confidence score whose
conversation is already `rejected`.  The gate returns false, but — contrary
to the claim — it does not force the conversation into `exited` nor set the
lead status to "exited": the early return in `should_respond` skips
`_exit_politely` for terminal states. -/
theorem c2_counterexample :
    (should_respond_run (Lead.mk "lead1" "" "business" "rejected" 5 0)
        (Conversation.mk ConvState.rejected 2)).1 = false ∧
    ¬ ((should_respond_run (Lead.mk "lead1" "" "business" "rejected" 5 0)
          (Conversation.mk ConvState.rejected 2)).2.2.state = ConvState.exited ∧
       (should_respond_run (Lead.mk "lead1" "" "business" "rejected" 5 0)
          (Conversation.mk ConvState.rejected 2)).2.1.status = "exited") := by
  decide

/-- C2 (amended): the gate returns false and leaves the lead and conversation
unchanged when the state is already `rejected` or `exited`; it returns false
and forces the conversation to `exited` with lead status "exited" only in the
low-confidence case (state not terminal, score below the threshold); and
whenever the gate is false the inbox pass never invokes the generator — its
result does not depend on the generator's output. -/
theorem c2_gate_amended (lead : Lead) (conv : Conversation)
    (gen1 gen2 user_message : String) (now today days : Int) (sys : Sys) :
    (conv.state = ConvState.rejected ∨ conv.state = ConvState.exited →
      should_respond_run lead conv = (false, lead, conv)) ∧
    (¬ (conv.state = ConvState.rejected ∨ conv.state = ConvState.exited) →
      lead.confidence_score < SCORE_THRESHOLD →
      should_respond_run lead conv =
        (false, { lead with status := "exited" },
                { conv with state := ConvState.exited })) ∧
    ((should_respond_run sys.lead sys.conv).1 = false →
      inbox_step gen1 now today days user_message sys =
        inbox_step gen2 now today days user_message sys) := by
  refine ⟨fun h => ?_, fun h hs => ?_, fun h => ?_⟩
  · unfold should_respond_run
    rw [if_pos h]
  · unfold should_respond_run
    rw [if_neg h, if_pos hs]
  · unfold inbox_step
    by_cases hc : can_send_dm now today days (some sys.bot) = false
    · rw [if_pos hc, if_pos hc]
    · rw [if_neg hc, if_neg hc]
      simp only [h, if_pos]

/-- Witness for C2 (amended): a concrete rejected lead, a concrete
low-confidence lead, and a gated inbox step whose result ignores the
generator output. -/
theorem c2_gate_amended_witness :
    (should_respond_run (Lead.mk "a" "" "business" "rejected" 5 0)
        (Conversation.mk ConvState.rejected 2) =
      (false, Lead.mk "a" "" "business" "rejected" 5 0,
       Conversation.mk ConvState.rejected 2)) ∧
    (should_respond_run (Lead.mk "b" "" "business" "contacted" (-1) 0)
        (Conversation.mk ConvState.qualifying 2) =
      (false, Lead.mk "b" "" "business" "exited" (-1) 0,
       Conversation.mk ConvState.exited 2)) ∧
    (inbox_step "Salom!" 0 6 2 "ha"
        (Sys.mk (Lead.mk "a" "" "business" "rejected" 5 0)
          (Conversation.mk ConvState.rejected 2) [] (BotState.mk none 0 6 none)) =
     inbox_step "Boshqa javob" 0 6 2 "ha"
        (Sys.mk (Lead.mk "a" "" "business" "rejected" 5 0)
          (Conversation.mk ConvState.rejected 2) [] (BotState.mk none 0 6 none))) :=
  ⟨(c2_gate_amended (Lead.mk "a" "" "business" "rejected" 5 0)
      (Conversation.mk ConvState.rejected 2) "" "" "" 0 0 0
      (Sys.mk (Lead.mk "a" "" "business" "rejected" 5 0)
        (Conversation.mk ConvState.rejected 2) [] (BotState.mk none 0 6 none))).1
      (Or.inl rfl),
   (c2_gate_amended (Lead.mk "b" "" "business" "contacted" (-1) 0)
      (Conversation.mk ConvState.qualifying 2) "" "" "" 0 0 0
      (Sys.mk (Lead.mk "b" "" "business" "contacted" (-1) 0)
        (Conversation.mk ConvState.qualifying 2) [] (BotState.mk none 0 6 none))).2.1
      (by decide) (by decide),
   (c2_gate_amended (Lead.mk "a" "" "business" "rejected" 5 0)
      (Conversation.mk ConvState.rejected 2) "Salom!" "Boshqa javob" "ha" 0 6 2
      (Sys.mk (Lead.mk "a" "" "business" "rejected" 5 0)
        (Conversation.mk ConvState.rejected 2) [] (BotState.mk none 0 6 none))).2.2
      (by decide)⟩

/-- C1: when a rejection reply makes a lead's consecutive-rejection counter
reach exactly `CONSECUTIVE_REJECTIONS_LIMIT`, the state machine sets the
global pause `paused_until = now + KILL_SWITCH_DURATION`, and for every
instant before that deadline `can_send_dm` — which is evaluated for every
lead alike — returns false. -/
theorem c1_kill_switch (gen u : String) (now today days t : Int) (sys : Sys)
    (hrej : (analyze_user_response u).is_rejection = true)
    (hcnt : sys.lead.consecutive_rejections + 1 = CONSECUTIVE_REJECTIONS_LIMIT) :
    (process_user_reply gen u now sys).2.bot.paused_until
      = some (now + KILL_SWITCH_DURATION) ∧
    (t < now + KILL_SWITCH_DURATION →
      can_send_dm t today days (some (process_user_reply gen u now sys).2.bot)
        = false) := by
  have hbot : (process_user_reply gen u now sys).2.bot
      = pause_bot now KILL_SWITCH_DURATION sys.bot := by
    unfold process_user_reply
    simp only [hrej, if_true]
    unfold handle_rejection
    simp only []
    rw [if_pos (by simpa using le_of_eq hcnt.symm)]
  have hpu : (process_user_reply gen u now sys).2.bot.paused_until
      = some (now + KILL_SWITCH_DURATION) := by
    rw [hbot]; rfl
  refine ⟨hpu, fun ht => ?_⟩
  have hp : is_bot_paused t (some (process_user_reply gen u now sys).2.bot)
      = true := by
    simp only [is_bot_paused]
    rw [hpu]
    exact decide_eq_true ht
  unfold can_send_dm
  rw [if_pos hp]

/-- Witness for C1: a lead already at one consecutive rejection replies
"qiziq emas" at time 0; the pause deadline becomes 86400 and `can_send_dm`
is false at time 86399. -/
theorem c1_kill_switch_witness :
    (process_user_reply "" "qiziq emas" 0
        (Sys.mk (Lead.mk "a" "" "business" "contacted" 0 1)
          (Conversation.mk ConvState.qualifying 2) []
          (BotState.mk none 0 0 none))).2.bot.paused_until = some (0 + KILL_SWITCH_DURATION) ∧
    can_send_dm 86399 0 2
      (some (process_user_reply "" "qiziq emas" 0
        (Sys.mk (Lead.mk "a" "" "business" "contacted" 0 1)
          (Conversation.mk ConvState.qualifying 2) []
          (BotState.mk none 0 0 none))).2.bot) = false := by
  have h := c1_kill_switch "" "qiziq emas" 0 0 2 86399
    (Sys.mk (Lead.mk "a" "" "business" "contacted" 0 1)
      (Conversation.mk ConvState.qualifying 2) []
      (BotState.mk none 0 0 none)) (by decide) (by decide)
  exact ⟨h.1, h.2 (by decide)⟩

/-- One gated or budget-blocked inbox iteration leaves a terminal
conversation untouched. -/
theorem inbox_step_terminal (gen : String) (now today days : Int)
    (u : String) (sys : Sys)
    (h : sys.conv.state = ConvState.rejected ∨ sys.conv.state = ConvState.exited) :
    inbox_step gen now today days u sys = sys := by
  unfold inbox_step
  by_cases hc : can_send_dm now today days (some sys.bot) = false
  · rw [if_pos hc]
  · rw [if_neg hc]
    simp only [should_respond_run, if_pos h]
    rw [if_pos trivial]

/-- C6: `rejected` and `exited` are absorbing — no sequence of subsequent
inbound messages processed by the inbox pass ever moves a conversation out
of a terminal state. -/
theorem c6_terminal_absorbing (sys : Sys) (steps : List InboxInput)
    (h : sys.conv.state = ConvState.rejected ∨ sys.conv.state = ConvState.exited) :
    (run_inbox steps sys).conv.state = sys.conv.state := by
  induction steps generalizing sys with
  | nil => rfl
  | cons q rest ih =>
    simp only [run_inbox, List.foldl_cons,
      inbox_step_terminal q.gen q.now q.today q.days q.user_message sys h]
    exact ih sys h

/-- Witness for C6: a rejected conversation hit by two further inbound
messages (one friendly, one another rejection) stays `rejected`. -/
theorem c6_terminal_absorbing_witness :
    (run_inbox
        [InboxInput.mk "Salom!" "menga qiziq, qanday?" 0 6 20,
         InboxInput.mk "Salom!" "kerak emas" 1 6 20]
        (Sys.mk (Lead.mk "a" "" "business" "rejected" 5 1)
          (Conversation.mk ConvState.rejected 2) []
          (BotState.mk none 0 6 none))).conv.state = ConvState.rejected :=
  c6_terminal_absorbing
    (Sys.mk (Lead.mk "a" "" "business" "rejected" 5 1)
      (Conversation.mk ConvState.rejected 2) [] (BotState.mk none 0 6 none))
    [InboxInput.mk "Salom!" "menga qiziq, qanday?" 0 6 20,
     InboxInput.mk "Salom!" "kerak emas" 1 6 20]
    (Or.inl rfl)

/-- The canned fallback opener is never the empty string, whatever the time
of day. -/
theorem fallback_first_message_ne_empty (time_of_day : String) :
    fallback_first_message time_of_day ≠ "" := by
  unfold fallback_first_message
  split_ifs <;> decide

/-- C8: generation failures never crash the state machine.  When first-message
generation fails (`none` from the backend), the canned time-of-day fallback
is substituted and the NEW → FIRST_SENT transition still completes: the bot
message is appended, `message_count` is incremented and the lead is marked
"contacted".  When reply generation fails (`generate_reply` yields `""`), the
empty result is returned, the state transition already applied to the
conversation stays in place, and no bot message is appended. -/
theorem c8_generation_failures (time_of_day u : String) (now : Int) (sys : Sys)
    (hrej : (analyze_user_response u).is_rejection = false) :
    (cm_generate_first_message none time_of_day sys =
      (fallback_first_message time_of_day,
       { sys with
           msgs := sys.msgs ++ [Msg.mk "assistant" (fallback_first_message time_of_day)],
           conv := { sys.conv with
                       message_count := sys.conv.message_count + 1,
                       state := ConvState.first_sent },
           lead := { sys.lead with status := "contacted" } })) ∧
    fallback_first_message time_of_day ≠ "" ∧
    (process_user_reply (gemini_generate_reply none) u now sys).1 = "" ∧
    (process_user_reply (gemini_generate_reply none) u now sys).2.msgs
      = sys.msgs ++ [Msg.mk "user" u] ∧
    (process_user_reply (gemini_generate_reply none) u now sys).2.conv.message_count
      = sys.conv.message_count ∧
    (process_user_reply (gemini_generate_reply none) u now sys).2.conv.state
      = (if sys.conv.message_count ≥ 3 then ConvState.soft_transition
         else ConvState.qualifying) := by
  have hfb : cm_generate_first_message none time_of_day sys =
      (fallback_first_message time_of_day,
       { sys with
           msgs := sys.msgs ++ [Msg.mk "assistant" (fallback_first_message time_of_day)],
           conv := { sys.conv with
                       message_count := sys.conv.message_count + 1,
                       state := ConvState.first_sent },
           lead := { sys.lead with status := "contacted" } }) := by
    unfold cm_generate_first_message gemini_generate_first_message
    rw [if_pos (fallback_first_message_ne_empty time_of_day)]
  have hpr : process_user_reply (gemini_generate_reply none) u now sys =
      ("",
       { sys with
           msgs := sys.msgs ++ [Msg.mk "user" u],
           lead := { sys.lead with
                       confidence_score := sys.lead.confidence_score +
                         calculate_score_delta (analyze_user_response u),
                       consecutive_rejections := 0 },
           conv := { sys.conv with state :=
             if sys.conv.message_count ≥ 3 then ConvState.soft_transition
             else ConvState.qualifying } }) := by
    unfold process_user_reply gemini_generate_reply
    simp only [hrej, Bool.false_eq_true, if_false, ne_eq, not_true_eq_false]
  refine ⟨hfb, fallback_first_message_ne_empty time_of_day, ?_, ?_, ?_, ?_⟩ <;>
    rw [hpr]

/-- Witness for C8: a concrete failed opener in the evening and a concrete
failed reply to "menga qiziq, davom eting", both on the same fresh lead. -/
theorem c8_generation_failures_witness :
    (cm_generate_first_message none "evening"
        (Sys.mk (Lead.mk "a" "" "business" "new" 0 0)
          (Conversation.mk ConvState.state_new 0) [] (BotState.mk none 0 6 none)) =
      (fallback_first_message "evening",
       Sys.mk (Lead.mk "a" "" "business" "contacted" 0 0)
         (Conversation.mk ConvState.first_sent 1)
         [Msg.mk "assistant" (fallback_first_message "evening")]
         (BotState.mk none 0 6 none))) ∧
    fallback_first_message "evening" ≠ "" ∧
    (process_user_reply (gemini_generate_reply none) "menga qiziq, davom eting" 0
        (Sys.mk (Lead.mk "a" "" "business" "new" 0 0)
          (Conversation.mk ConvState.state_new 0) [] (BotState.mk none 0 6 none))).1 = "" ∧
    (process_user_reply (gemini_generate_reply none) "menga qiziq, davom eting" 0
        (Sys.mk (Lead.mk "a" "" "business" "new" 0 0)
          (Conversation.mk ConvState.state_new 0) [] (BotState.mk none 0 6 none))).2.msgs
      = [Msg.mk "user" "menga qiziq, davom eting"] ∧
    (process_user_reply (gemini_generate_reply none) "menga qiziq, davom eting" 0
        (Sys.mk (Lead.mk "a" "" "business" "new" 0 0)
          (Conversation.mk ConvState.state_new 0) [] (BotState.mk none 0 6 none))).2.conv.message_count = 0 ∧
    (process_user_reply (gemini_generate_reply none) "menga qiziq, davom eting" 0
        (Sys.mk (Lead.mk "a" "" "business" "new" 0 0)
          (Conversation.mk ConvState.state_new 0) [] (BotState.mk none 0 6 none))).2.conv.state
      = (if (0 : Int) ≥ 3 then ConvState.soft_transition else ConvState.qualifying) :=
  c8_generation_failures "evening" "menga qiziq, davom eting" 0
    (Sys.mk (Lead.mk "a" "" "business" "new" 0 0)
      (Conversation.mk ConvState.state_new 0) [] (BotState.mk none 0 6 none))
    (by decide)

/-- C9: the claimed backend-identical duplicate-insert behavior does not
hold on the code.  On SQLite a duplicate `add_lead` does return the existing
row's id and leaves the stored lead row untouched, but on PostgreSQL every
`add_lead` call — duplicate or not — raises before commit, because the
`conversations` insert names `ON CONFLICT (lead_id)` while the schema has no
unique constraint on `conversations.lead_id`; evaluated at the concrete
duplicate input "shop_uz" the two backends diverge: SQLite yields id 11 with
the lead table unchanged, PostgreSQL yields no id at all. -/
theorem c9_backend_divergence :
    (∀ (tbl : List LeadRow) (convs : List ConvRow) (nextId convNextId : Int)
       (u b lpt n : String) (now : Int),
       add_lead_pg tbl convs nextId convNextId u b lpt n now = none) ∧
    (add_lead_sqlite
        [LeadRow.mk 11 "shop_uz" "kofe" "latte" "business" "contacted" 4 1 3]
        [] 13 21 "shop_uz" "boshqa bio" "" "services" 9).1 = 11 ∧
    (add_lead_sqlite
        [LeadRow.mk 11 "shop_uz" "kofe" "latte" "business" "contacted" 4 1 3]
        [] 13 21 "shop_uz" "boshqa bio" "" "services" 9).2.1 =
      [LeadRow.mk 11 "shop_uz" "kofe" "latte" "business" "contacted" 4 1 3] ∧
    add_lead_pg
        [LeadRow.mk 11 "shop_uz" "kofe" "latte" "business" "contacted" 4 1 3]
        [] 13 21 "shop_uz" "boshqa bio" "" "services" 9 = none := by
  refine ⟨fun tbl convs nextId convNextId u b lpt n now => rfl, ?_, ?_, rfl⟩
  · decide
  · decide

/-- Dropping a leading run of `p`-characters distributes over an append whose
right part starts with a non-`p` character. -/
theorem dropWhile_append_of_head {α : Type} (p : α → Bool) (a : List α)
    {l : List α} {c : α} (hh : l.head? = some c) (hc : p c = false) :
    (a ++ l).dropWhile p = a.dropWhile p ++ l := by
  cases l with
  | nil => simp at hh
  | cons x xs =>
    have hx : x = c := by simpa using hh
    subst hx
    rw [List.dropWhile_append]
    by_cases he : (a.dropWhile p).isEmpty
    · rw [if_pos he]
      rw [List.dropWhile_cons_of_neg (by simp [hc])]
      have ha : a.dropWhile p = [] := by simpa using he
      rw [ha, List.nil_append]
    · rw [if_neg he]

/-- An occurrence whose first character is not `p` survives `dropWhile p`. -/
theorem sub_dropWhile_of_head {α : Type} (p : α → Bool) {w l : List α}
    {c : α} (hh : w.head? = some c) (hc : p c = false) (h : w <:+: l) :
    w <:+: l.dropWhile p := by
  obtain ⟨s, t, rfl⟩ := h
  have hh2 : (w ++ t).head? = some c := by
    cases w with
    | nil => simp at hh
    | cons x xs => simpa using hh
  rw [List.append_assoc, dropWhile_append_of_head p s hh2 hc]
  exact ⟨s.dropWhile p, t, by rw [List.append_assoc]⟩

/-- A phrase that neither starts nor ends with whitespace. -/
def noWsEdge (w : List Char) : Bool :=
  match w.head?, w.reverse.head? with
  | some c, some d => !c.isWhitespace && !d.isWhitespace
  | _, _ => false

/-- Python's `strip()` cannot destroy an occurrence of a phrase whose edges
are not whitespace: substring containment survives the trimming that
`analyze_user_response` applies to the lowered message. -/
theorem sub_pyStrip_of_noWsEdge {w l : List Char} (hg : noWsEdge w = true)
    (h : w <:+: l) : w <:+: pyStrip l := by
  unfold noWsEdge at hg
  cases hw : w.head? with
  | none => rw [hw] at hg; simp at hg
  | some c =>
    cases hrev : w.reverse.head? with
    | none => rw [hw, hrev] at hg; simp at hg
    | some d =>
      rw [hw, hrev] at hg
      simp only [Bool.and_eq_true, Bool.not_eq_true'] at hg
      obtain ⟨hc, hd⟩ := hg
      have h1 : w <:+: l.dropWhile Char.isWhitespace :=
        sub_dropWhile_of_head _ hw hc h
      have h2 : w.reverse <:+: (l.dropWhile Char.isWhitespace).reverse :=
        h1.reverse
      have h3 : w.reverse <:+:
          ((l.dropWhile Char.isWhitespace).reverse).dropWhile Char.isWhitespace :=
        sub_dropWhile_of_head _ hrev hd h2
      have h4 := h3.reverse
      rw [List.reverse_reverse] at h4
      exact h4

/-- Every configured rejection phrase has non-whitespace edges. -/
theorem rejection_phrases_noWsEdge : rejection_phrases.all noWsEdge = true := by
  decide

/-- C3: any utterance containing (case-insensitively) a configured rejection
phrase is classified as a rejection, and its score delta is exactly the
rejection penalty −5, whatever else the utterance contains — the rejection
branch short-circuits the question, problem and low-signal deltas. -/
theorem c3_rejection_short_circuit (u : String)
    (h : ∃ p, p ∈ rejection_phrases ∧ p <:+: pyLower u.data) :
    (analyze_user_response u).is_rejection = true ∧
    calculate_score_delta (analyze_user_response u) = SCORE_REJECTION := by
  obtain ⟨p, hp, hinf⟩ := h
  have hg : noWsEdge p = true :=
    List.all_eq_true.mp rejection_phrases_noWsEdge p hp
  have hstrip : p <:+: pyStrip (pyLower u.data) :=
    sub_pyStrip_of_noWsEdge hg hinf
  have hrej : (analyze_user_response u).is_rejection = true := by
    simp only [analyze_user_response]
    rw [List.any_eq_true]
    exact ⟨p, hp, decide_eq_true hstrip⟩
  refine ⟨hrej, ?_⟩
  unfold calculate_score_delta
  rw [hrej]
  rfl

/-- Witness for C3: "Bu menga QIZIQ EMAS, muammo bor?" contains a rejection
phrase in upper case together with a question mark and a problem phrase, yet
scores exactly −5. -/
theorem c3_rejection_short_circuit_witness :
    (analyze_user_response "Bu menga QIZIQ EMAS, muammo bor?").is_rejection = true ∧
    calculate_score_delta (analyze_user_response "Bu menga QIZIQ EMAS, muammo bor?")
      = SCORE_REJECTION :=
  c3_rejection_short_circuit "Bu menga QIZIQ EMAS, muammo bor?"
    ⟨"qiziq emas".data, by decide, by decide⟩

/-- C7: a non-rejection utterance that is low-signal — its lowered, trimmed
form is one of the configured neutral acknowledgments, or its raw length is
below the 10-character threshold — receives a score delta of exactly 0. -/
theorem c7_low_signal_zero (u : String)
    (hrej : (analyze_user_response u).is_rejection = false)
    (h : pyStrip (pyLower u.data) ∈ neutral_engagement ∨ u.data.length < 10) :
    calculate_score_delta (analyze_user_response u) = 0 := by
  have hcold : (analyze_user_response u).is_cold = true := by
    simp only [analyze_user_response]
    rcases h with h | h
    · rw [Bool.or_eq_true]
      exact Or.inl (decide_eq_true h)
    · rw [Bool.or_eq_true]
      exact Or.inr (decide_eq_true h)
  unfold calculate_score_delta
  rw [hrej, hcold]
  rfl

/-- Witness for C7: "Xo\x27p" is not a rejection and is shorter than 10
characters, so its delta is 0. -/
theorem c7_low_signal_zero_witness :
    calculate_score_delta (analyze_user_response "Xo\x27p") = 0 :=
  c7_low_signal_zero "Xo\x27p" (by decide) (Or.inr (by decide))

end InstaBot
